import Mathlib

/-!
Verification of the Poke-combat application: a shallow embedding of the
combat sequencer (`CombatResult` component), the selection handler
(`handleSelect` in the character-list page) and the API service layer
(`getCharacters`, `getSingleCharacter`), with theorems settling the
specification's claims about them.

Modelling conventions:
* JavaScript numbers that hold integers (ids, attack stats, indices) are `Nat`.
* `Math.random()` results are rationals `r` with `0 ≤ r < 1`; each timer tick
  consumes one draw, so a combat run takes a stream `rand : Nat → ℚ` indexed
  by the round number.
* The timer-driven interval of `simulateCombat` fires strictly in sequence
  (the spec's concurrency section guarantees ticks never overlap, and each
  tick's deferred animation-flag reset at +1 time unit lands before the next
  tick at +2.5), so the run is embedded as a sequential recursion over rounds.
* A thrown-and-caught JavaScript exception is an `Except.error` input (for
  transport failures) or an `Option` `none` (for a field access on
  `undefined` inside a `try` block).
-/

namespace PokeCombat

/-- The normalized fighter record produced by the API layer and consumed by
the combat view: `{ id, name, attack, type, image }`. -/
structure Fighter where
  id : Nat
  name : String
  attack : Nat
  type : String
  image : String
deriving DecidableEq

/-- One entry of the component's `fighterStates` array: a fighter enriched
with the two transient animation flags. -/
structure FighterAnim where
  fighter : Fighter
  isAttacking : Bool
  isHit : Bool
deriving DecidableEq

/-- The React state of the `CombatResult` component: `combatLog`,
`currentAttacker`, `combatFinished`, `winner`, `fighterStates`. -/
structure CombatState where
  combatLog : List String
  currentAttacker : Nat
  combatFinished : Bool
  winner : Option Fighter
  fighterStates : FighterAnim × FighterAnim
deriving DecidableEq

/-- `capitalizeFirst`: `str.charAt(0).toUpperCase() + str.slice(1)`. -/
def capitalizeFirst (str : String) : String :=
  match str.data with
  | [] => ""
  | c :: cs => String.mk (Char.toUpper c :: cs)

/-- The `attackMoves` lookup table keyed by type; a key absent from the
object yields `undefined`, embedded as `none`. -/
def attackMoves (t : String) : Option (List String) :=
  if t = "fire" then some ["Flamethrower", "Fire Blast", "Ember", "Fire Punch"]
  else if t = "water" then some ["Water Gun", "Hydro Pump", "Bubble Beam", "Surf"]
  else if t = "grass" then some ["Vine Whip", "Solar Beam", "Leaf Blade", "Petal Dance"]
  else if t = "electric" then some ["Thunderbolt", "Thunder", "Thunder Shock", "Quick Attack"]
  else if t = "normal" then some ["Tackle", "Body Slam", "Quick Attack", "Hyper Beam"]
  else none

/-- The table's `default` entry, the fallback for unknown type labels. -/
def defaultMoves : List String := ["Tackle", "Scratch", "Quick Attack", "Body Slam"]

/-- `Math.floor(r * moves.length)` for a draw `r` of `Math.random()`. -/
def randIndex (r : ℚ) (len : Nat) : Nat := (⌊r * (len : ℚ)⌋).toNat

/-- `getRandomMove`: `moves = attackMoves[type] || attackMoves.default;
moves[Math.floor(Math.random() * moves.length)]` (an out-of-bounds index
would yield `undefined`, embedded as `""`; the bounds theorem shows it
cannot occur). -/
def getRandomMove (t : String) (r : ℚ) : String :=
  let moves := (attackMoves t).getD defaultMoves
  moves.getD (randIndex r moves.length) ""

/-- `maxRounds = 5`. -/
def maxRounds : Nat := 5

/-- The log line appended by one tick:
`` `${capitalizeFirst(attackerPokemon.name)} uses ${move}!` ``. -/
def attackLine (attacker : Fighter) (move : String) : String :=
  capitalizeFirst attacker.name ++ " uses " ++ move ++ "!"

/-- The final log line:
`` `${capitalizeFirst(combatWinner.name)} wins the battle!` ``. -/
def winLine (w : Fighter) : String :=
  capitalizeFirst w.name ++ " wins the battle!"

/-- The winner rule: `fighters[0].attack > fighters[1].attack ? fighters[0]
: fighters[1]`. -/
def combatWinner (f0 f1 : Fighter) : Fighter :=
  if f0.attack > f1.attack then f0 else f1

/-- The `setFighterStates` update of one tick: fighter at `index` gets
`isAttacking: index === attacker, isHit: index === (1 - attacker)`. -/
def animateTick (attacker : Nat) (prev : FighterAnim × FighterAnim) :
    FighterAnim × FighterAnim :=
  ({ prev.1 with isAttacking := attacker == 0, isHit := 1 - attacker == 0 },
   { prev.2 with isAttacking := attacker == 1, isHit := 1 - attacker == 1 })

/-- The deferred `setFighterStates` reset: every flag back to `false`. -/
def resetAnim (prev : FighterAnim × FighterAnim) : FighterAnim × FighterAnim :=
  ({ prev.1 with isAttacking := false, isHit := false },
   { prev.2 with isAttacking := false, isHit := false })

/-- One firing of the `setInterval` body of `simulateCombat`: pick attacker
and move, set the animation flags, append the log line; the deferred
flag-reset (fires 1 time unit later, before the next tick at 2.5) is the
final state update. -/
def tick (f0 f1 : Fighter) (rand : Nat → ℚ) (attacker round : Nat)
    (s : CombatState) : CombatState :=
  let attackerPokemon := if attacker == 0 then f0 else f1
  let move := getRandomMove attackerPokemon.type (rand round)
  let s1 := { s with fighterStates := animateTick attacker s.fighterStates }
  let s2 := { s1 with combatLog := s1.combatLog ++ [attackLine attackerPokemon move] }
  { s2 with fighterStates := resetAnim s2.fighterStates }

/-- The winner resolution after the interval is cleared: `setWinner`,
`setCombatFinished(true)`, append the winner line. -/
def resolve (f0 f1 : Fighter) (s : CombatState) : CombatState :=
  { s with winner := some (combatWinner f0 f1),
           combatFinished := true,
           combatLog := s.combatLog ++ [winLine (combatWinner f0 f1)] }

/-- The interval loop of `simulateCombat`: each firing runs `tick`; when
`round >= maxRounds` the interval is cleared and the winner resolved,
otherwise `attacker = 1 - attacker; round++` and the interval fires again. -/
def runRounds (f0 f1 : Fighter) (rand : Nat → ℚ) (attacker round : Nat)
    (s : CombatState) : CombatState :=
  let s1 := tick f0 f1 rand attacker round s
  if maxRounds ≤ round then resolve f0 f1 s1
  else runRounds f0 f1 rand (1 - attacker) (round + 1) s1
termination_by maxRounds + 1 - round
decreasing_by omega

/-- `simulateCombat`, acting on the component state it is invoked over:
`attacker = 0`, `round = 1`, then the interval loop. -/
def simulateCombat (f0 f1 : Fighter) (rand : Nat → ℚ) (s : CombatState) :
    CombatState :=
  runRounds f0 f1 rand 0 1 s

/-- The `useState` initializers of the component: empty log, attacker 0,
not finished, no winner, both fighters with cleared animation flags. -/
def initState (f0 f1 : Fighter) : CombatState :=
  { combatLog := [], currentAttacker := 0, combatFinished := false,
    winner := none,
    fighterStates := (⟨f0, false, false⟩, ⟨f1, false, false⟩) }

/-- A full combat run as triggered on mount: `simulateCombat` over the
initial state (the mount `setTimeout` of 1 time unit only delays it). -/
def mountCombat (f0 f1 : Fighter) (rand : Nat → ℚ) : CombatState :=
  simulateCombat f0 f1 rand (initState f0 f1)

/-- The `CombatResult` component: `if (fighters.length !== 2)` it renders
only the advisory `"Please select two Pokémon."` (no combat state exists,
`none`); otherwise the combat runs over `fighters[0]`, `fighters[1]`. -/
def CombatResult (fighters : List Fighter) (rand : Nat → ℚ) :
    Option CombatState :=
  if fighters.length ≠ 2 then none
  else
    match fighters with
    | f0 :: f1 :: _ => some (mountCombat f0 f1 rand)
    | _ => none

/-- The log entries the component renders: none at all on the advisory
branch, `combatLog` otherwise. -/
def renderedLog (fighters : List Fighter) (rand : Nat → ℚ) : List String :=
  match CombatResult fighters rand with
  | none => []
  | some s => s.combatLog

/-- The synchronous part of `restartCombat`: `setCombatLog([])`,
`setCurrentAttacker(0)`, `setCombatFinished(false)`, `setWinner(null)`,
`setFighterStates` with cleared flags. The previous run's state is
discarded wholesale. -/
def restartReset (f0 f1 : Fighter) (_s : CombatState) : CombatState :=
  { combatLog := [], currentAttacker := 0, combatFinished := false,
    winner := none,
    fighterStates := (⟨f0, false, false⟩, ⟨f1, false, false⟩) }

/-- `restartCombat`: the reset, then (after the 0.5 time-unit delay)
`simulateCombat` over the reset state. -/
def restartCombat (f0 f1 : Fighter) (rand : Nat → ℚ) (s : CombatState) :
    CombatState :=
  simulateCombat f0 f1 rand (restartReset f0 f1 s)

/-- The fighters of the component's own JSDoc example: pikachu with attack
55 and charizard with attack 84. -/
def pikachu : Fighter := ⟨25, "pikachu", 55, "electric", "pikachu.png"⟩

/-- See `pikachu`. -/
def charizard : Fighter := ⟨6, "charizard", 84, "fire", "charizard.png"⟩

/-- An equal-attack pair used to exhibit the tie behaviour. -/
def tieA : Fighter := ⟨1, "bulbasaur", 49, "grass", "bulbasaur.png"⟩

/-- See `tieA`: same attack value 49. -/
def tieB : Fighter := ⟨7, "squirtle", 49, "water", "squirtle.png"⟩

/-- The closed form of a full combat run: five attack lines with attacker
alternating f0, f1, f0, f1, f0, then the winner line; finished, winner set,
animation flags cleared by the last deferred reset. -/
theorem mountCombat_eq (f0 f1 : Fighter) (rand : Nat → ℚ) :
    mountCombat f0 f1 rand =
      { combatLog := [attackLine f0 (getRandomMove f0.type (rand 1)),
                      attackLine f1 (getRandomMove f1.type (rand 2)),
                      attackLine f0 (getRandomMove f0.type (rand 3)),
                      attackLine f1 (getRandomMove f1.type (rand 4)),
                      attackLine f0 (getRandomMove f0.type (rand 5)),
                      winLine (combatWinner f0 f1)],
        currentAttacker := 0,
        combatFinished := true,
        winner := some (combatWinner f0 f1),
        fighterStates := (⟨f0, false, false⟩, ⟨f1, false, false⟩) } := by
  simp [mountCombat, simulateCombat, runRounds, maxRounds, tick, resolve,
    initState, animateTick, resetAnim]

/-- An in-bounds `getD` yields a member of the list. -/
theorem getD_mem_of_lt {α : Type} (l : List α) (n : Nat) (d : α)
    (h : n < l.length) : l.getD n d ∈ l := by
  rw [List.getD_eq_getElem?_getD, List.getElem?_eq_getElem h]
  exact List.getElem_mem h

/-- `Math.floor(r * len)` is an in-bounds index for any draw `0 ≤ r < 1`
over a nonempty table. -/
theorem randIndex_lt (r : ℚ) (len : Nat) (h0 : 0 ≤ r) (h1 : r < 1)
    (hlen : 0 < len) : randIndex r len < len := by
  unfold randIndex
  have hc : (0 : ℚ) < (len : ℚ) := by exact_mod_cast hlen
  have h2 : (0 : ℚ) ≤ r * (len : ℚ) := mul_nonneg h0 (le_of_lt hc)
  have h3 : r * (len : ℚ) < (len : ℚ) := by
    calc r * (len : ℚ) < 1 * (len : ℚ) := mul_lt_mul_of_pos_right h1 hc
    _ = (len : ℚ) := one_mul _
  have h4 : ⌊r * ((len : Nat) : ℚ)⌋ < ((len : Nat) : ℤ) :=
    Int.floor_lt.mpr (by exact_mod_cast h3)
  have h5 : 0 ≤ ⌊r * ((len : Nat) : ℚ)⌋ := Int.floor_nonneg.mpr h2
  omega

/-- Claim C2: for every input of exactly two fighters, one complete combat
run reaches the Finished state after exactly 5 rounds, the log holding
exactly 6 lines: 5 attack lines followed by 1 winner line. -/
theorem c2_five_rounds_six_lines (f0 f1 : Fighter) (rand : Nat → ℚ) :
    ∃ s, CombatResult [f0, f1] rand = some s ∧
      s.combatFinished = true ∧
      s.combatLog.length = 6 ∧
      (∀ i : Fin 5, ∃ a move, (a = f0 ∨ a = f1) ∧
        s.combatLog[i.val]? = some (attackLine a move)) ∧
      s.combatLog[5]? = some (winLine (combatWinner f0 f1)) := by
  refine ⟨mountCombat f0 f1 rand, by simp [CombatResult], ?_, ?_, ?_, ?_⟩
  · rw [mountCombat_eq]
  · rw [mountCombat_eq]
    rfl
  · intro i
    rw [mountCombat_eq]
    fin_cases i
    · exact ⟨f0, _, Or.inl rfl, rfl⟩
    · exact ⟨f1, _, Or.inr rfl, rfl⟩
    · exact ⟨f0, _, Or.inl rfl, rfl⟩
    · exact ⟨f1, _, Or.inr rfl, rfl⟩
    · exact ⟨f0, _, Or.inl rfl, rfl⟩
  · rw [mountCombat_eq]
    rfl

/-- Claim C1, counterexample: on the equal-attack pair `tieA`/`tieB` the
declared winner is the second participant, not the first as claimed. -/
theorem c1_tie_counterexample :
    tieA.attack = tieB.attack ∧
    (mountCombat tieA tieB (fun _ => 0)).winner = some tieB ∧
    tieB ≠ tieA := by
  refine ⟨rfl, ?_, by decide⟩
  rw [mountCombat_eq]
  rfl

/-- Claim C1, amended: the winner is the fighter with the strictly greater
attack; on equal attack the second participant (`fighters[1]`) wins. -/
theorem c1_winner_rule (f0 f1 : Fighter) (rand : Nat → ℚ) :
    (f1.attack < f0.attack → (mountCombat f0 f1 rand).winner = some f0) ∧
    (f0.attack ≤ f1.attack → (mountCombat f0 f1 rand).winner = some f1) := by
  rw [mountCombat_eq]
  constructor
  · intro h
    simp [combatWinner, h]
  · intro h
    simp [combatWinner, Nat.not_lt.mpr h]

/-- Claim C3: the declared winner's attack is greater than or equal to
both participants' attacks; at the attack values (55, 84) of
`pikachu`/`charizard`, charizard (attack 84) is the winner. -/
theorem c3_winner_attack_ge (f0 f1 : Fighter) (rand : Nat → ℚ) :
    (∀ w, (mountCombat f0 f1 rand).winner = some w →
      f0.attack ≤ w.attack ∧ f1.attack ≤ w.attack) ∧
    (mountCombat pikachu charizard rand).winner = some charizard := by
  constructor
  · intro w hw
    rw [mountCombat_eq] at hw
    simp only [Option.some.injEq] at hw
    subst hw
    unfold combatWinner
    split
    · omega
    · omega
  · rw [mountCombat_eq]
    simp [combatWinner, pikachu, charizard]

/-- Claim C4: with a fighter count other than two, the component renders
only the advisory ("need two fighters") branch: no combat state, no
animation, and zero rendered log lines. -/
theorem c4_advisory_no_log (fighters : List Fighter) (rand : Nat → ℚ)
    (h : fighters.length ≠ 2) :
    CombatResult fighters rand = none ∧ renderedLog fighters rand = [] := by
  have hc : CombatResult fighters rand = none := by
    unfold CombatResult
    simp [h]
  exact ⟨hc, by simp [renderedLog, hc]⟩

/-- Witness for C4 at a concrete one-fighter input. -/
theorem c4_advisory_no_log_witness :
    CombatResult [pikachu] (fun _ => 0) = none ∧
    renderedLog [pikachu] (fun _ => 0) = [] :=
  c4_advisory_no_log [pikachu] (fun _ => 0) (by decide)

/-- Claim C5: for any draw `0 ≤ r < 1` the floored random index over a
4-entry table is in bounds; category `"fire"` always yields one of the four
fire moves, and any category absent from the lookup table always yields one
of the four default moves. -/
theorem c5_move_tables (r : ℚ) (t : String) (h0 : 0 ≤ r) (h1 : r < 1)
    (ht : attackMoves t = none) :
    randIndex r 4 < 4 ∧
    getRandomMove "fire" r ∈ ["Flamethrower", "Fire Blast", "Ember", "Fire Punch"] ∧
    getRandomMove t r ∈ defaultMoves := by
  have hidx : randIndex r 4 < 4 := randIndex_lt r 4 h0 h1 (by norm_num)
  refine ⟨hidx, ?_, ?_⟩
  · have : getRandomMove "fire" r =
        (["Flamethrower", "Fire Blast", "Ember", "Fire Punch"] : List String).getD
          (randIndex r 4) "" := rfl
    rw [this]
    exact getD_mem_of_lt _ _ _ (by simpa using hidx)
  · have : getRandomMove t r = defaultMoves.getD (randIndex r 4) "" := by
      unfold getRandomMove
      rw [ht]
      rfl
    rw [this]
    exact getD_mem_of_lt _ _ _ (by simpa [defaultMoves] using hidx)

/-- Witness for C5 at `r = 0`, `t = "dragon"`. -/
theorem c5_move_tables_witness :
    randIndex 0 4 < 4 ∧
    getRandomMove "fire" 0 ∈ ["Flamethrower", "Fire Blast", "Ember", "Fire Punch"] ∧
    getRandomMove "dragon" 0 ∈ defaultMoves :=
  c5_move_tables 0 "dragon" (le_refl 0) (by norm_num) (by decide)

/-- Claim C6: in a two-fighter run, the attack line of round `i + 1`
(log index `i`, `i = 0..4`) is produced by participant `i % 2` — the
alternation starts with participant 0 — and has the shape
`<Capitalized attacker name> uses <move>!`. -/
theorem c6_alternation (f0 f1 : Fighter) (rand : Nat → ℚ) (i : Fin 5) :
    (mountCombat f0 f1 rand).combatLog[i.val]? =
      some (attackLine (if i.val % 2 = 0 then f0 else f1)
        (getRandomMove (if i.val % 2 = 0 then f0 else f1).type
          (rand (i.val + 1)))) := by
  rw [mountCombat_eq]
  fin_cases i <;> rfl

/-- Claim C9: the restart operation resets the component to exactly the
initial pre-run state — empty log, animation flags false, attacker counter
0, no winner — before the delayed re-run, and the re-armed run coincides
with a fresh mount run. -/
theorem c9_restart_resets (f0 f1 : Fighter) (rand : Nat → ℚ)
    (s : CombatState) :
    restartReset f0 f1 s = initState f0 f1 ∧
    (restartReset f0 f1 s).combatLog = [] ∧
    (restartReset f0 f1 s).winner = none ∧
    (restartReset f0 f1 s).combatFinished = false ∧
    (restartReset f0 f1 s).currentAttacker = 0 ∧
    (restartReset f0 f1 s).fighterStates =
      (⟨f0, false, false⟩, ⟨f1, false, false⟩) ∧
    restartCombat f0 f1 rand s = mountCombat f0 f1 rand :=
  ⟨rfl, rfl, rfl, rfl, rfl, rfl, rfl⟩

/-- `handleSelect` of the character-list page: an already-selected
character is removed (filter by a differing `id`); otherwise it is added
only while fewer than 2 are selected. -/
def handleSelect (selectedCharacters : List Fighter) (character : Fighter) :
    List Fighter :=
  if character ∈ selectedCharacters then
    selectedCharacters.filter (fun c => c.id != character.id)
  else if selectedCharacters.length < 2 then
    selectedCharacters ++ [character]
  else
    selectedCharacters

/-- One `handleSelect` step keeps the selection at two or fewer. -/
theorem handleSelect_length_le (s : List Fighter) (c : Fighter)
    (h : s.length ≤ 2) : (handleSelect s c).length ≤ 2 := by
  unfold handleSelect
  split
  · exact le_trans (List.length_filter_le _ _) h
  · split
    · simp only [List.length_append, List.length_singleton]
      omega
    · exact h

/-- Any `handleSelect` fold from a small-enough start stays at two or
fewer. -/
theorem foldl_handleSelect_le (ops : List Fighter) :
    ∀ s : List Fighter, s.length ≤ 2 →
      (ops.foldl handleSelect s).length ≤ 2 := by
  induction ops with
  | nil => intro s h; simpa using h
  | cons c ops ih =>
    intro s h
    exact ih _ (handleSelect_length_le s c h)

/-- Claim C8: selection toggles membership and is capped at two — an
already-selected record is removed, an unselected one is added while fewer
than two are selected, adding to a full selection is a no-op, and every
sequence of operations from the empty selection holds at most two
records. -/
theorem c8_selection (s : List Fighter) (c : Fighter) (ops : List Fighter) :
    (c ∈ s → c ∉ handleSelect s c) ∧
    (c ∉ s → s.length < 2 → handleSelect s c = s ++ [c]) ∧
    (c ∉ s → s.length = 2 → handleSelect s c = s) ∧
    (ops.foldl handleSelect []).length ≤ 2 := by
  refine ⟨?_, ?_, ?_, foldl_handleSelect_le ops [] (by simp)⟩
  · intro hmem hcontra
    rw [handleSelect, if_pos hmem] at hcontra
    rcases List.mem_filter.mp hcontra with ⟨-, hid⟩
    simp at hid
  · intro hmem hlen
    rw [handleSelect, if_neg hmem, if_pos hlen]
  · intro hmem hlen
    rw [handleSelect, if_neg hmem, if_neg (by omega)]

/-- The `stat` reference inside one entry of a detail response's `stats`
array. -/
structure StatRef where
  name : String
deriving DecidableEq

/-- One entry of the `stats` array: `{ stat: { name }, base_stat }`. -/
structure RawStat where
  stat : StatRef
  base_stat : Nat
deriving DecidableEq

/-- The `type` reference inside one entry of the `types` array. -/
structure TypeRef where
  name : String
deriving DecidableEq

/-- One entry of the `types` array: `{ type: { name } }`. -/
structure RawType where
  type : TypeRef
deriving DecidableEq

/-- The `sprites` object of a detail response. -/
structure Sprites where
  front_default : String
deriving DecidableEq

/-- A raw detail response body as consumed by the service layer. -/
structure RawPokemon where
  id : Nat
  name : String
  stats : List RawStat
  types : List RawType
  sprites : Sprites
deriving DecidableEq

/-- `pokemon.stats.find(stat => stat.stat.name === 'attack')`: `none` is
JavaScript's `undefined`. -/
def findAttack (stats : List RawStat) : Option RawStat :=
  stats.find? (fun stat => stat.stat.name == "attack")

/-- The per-item mapping of the service layer: build
`{ id, name, attack, type, image }`. A missing `attack` stat or an empty
`types` array makes the field access `.base_stat` / `.type` throw on
`undefined`, embedded as `none`. -/
def normalizePokemon (pokemon : RawPokemon) : Option Fighter :=
  match findAttack pokemon.stats, pokemon.types.head? with
  | some attackStat, some firstType =>
      some ⟨pokemon.id, pokemon.name, attackStat.base_stat,
        firstType.type.name, pokemon.sprites.front_default⟩
  | _, _ => none

/-- `detailedPokemons.map(...)` under throw semantics: one throwing item
aborts the whole mapping (the exception leaves the shared `try` block). -/
def normalizeAll : List RawPokemon → Option (List Fighter)
  | [] => some []
  | p :: ps =>
    match normalizePokemon p, normalizeAll ps with
    | some f, some fs => some (f :: fs)
    | _, _ => none

/-- `getCharacters`: the listing fetch plus per-item detail fetches are the
`Except` input (`error` for any transport failure); a throw while mapping
the page is caught by the same `catch`, and the `catch` returns `[]`. -/
def getCharacters (fetchResult : Except String (List RawPokemon)) :
    List Fighter :=
  match fetchResult with
  | Except.error _ => []
  | Except.ok detailedPokemons =>
    match normalizeAll detailedPokemons with
    | none => []
    | some fighters => fighters

/-- `getSingleCharacter`: the detail fetch is the `Except` input; any
transport failure (a nonexistent id makes the request reject) or throw
while formatting is caught, and the `catch` returns `null` (`none`). -/
def getSingleCharacter (fetchResult : Except String RawPokemon) :
    Option Fighter :=
  match fetchResult with
  | Except.error _ => none
  | Except.ok pokemon => normalizePokemon pokemon

/-- Claim C7: on any fetch error `getCharacters` yields the empty sequence
and `getSingleCharacter` yields `none`; a parse failure while formatting a
fetched detail object also yields `none`. Both are total functions of
their fetch outcome: no failure propagates. -/
theorem c7_fail_soft (e : String) (p : RawPokemon) :
    getCharacters (Except.error e) = [] ∧
    getSingleCharacter (Except.error e) = none ∧
    (normalizePokemon p = none → getSingleCharacter (Except.ok p) = none) :=
  ⟨rfl, rfl, fun h => h⟩

/-- A malformed item (no attack stat or no type entry) fails to
normalize. -/
theorem normalizePokemon_eq_none (p : RawPokemon)
    (hbad : findAttack p.stats = none ∨ p.types = []) :
    normalizePokemon p = none := by
  unfold normalizePokemon
  rcases hbad with h | h
  · rw [h]
  · rw [h]
    rcases findAttack p.stats with - | a <;> rfl

/-- One failing item aborts the mapping of the whole page. -/
theorem normalizeAll_eq_none (items : List RawPokemon) (p : RawPokemon)
    (hmem : p ∈ items) (hp : normalizePokemon p = none) :
    normalizeAll items = none := by
  induction items with
  | nil => cases hmem
  | cons q qs ih =>
    rcases List.mem_cons.mp hmem with rfl | hmem2
    · unfold normalizeAll
      rw [hp]
    · unfold normalizeAll
      rw [ih hmem2]
      rcases normalizePokemon q with - | f <;> rfl

/-- Claim C10: if any single item of a fetched page has no `attack` stat
entry or an empty `types` collection, `getCharacters` returns the empty
sequence for the whole page, discarding every well-formed item. -/
theorem c10_page_discarded (items : List RawPokemon) (p : RawPokemon)
    (hmem : p ∈ items)
    (hbad : findAttack p.stats = none ∨ p.types = []) :
    getCharacters (Except.ok items) = [] := by
  have h := normalizeAll_eq_none items p hmem (normalizePokemon_eq_none p hbad)
  simp [getCharacters, h]

/-- A well-formed raw detail object. -/
def goodRaw : RawPokemon :=
  ⟨25, "pikachu", [⟨⟨"attack"⟩, 55⟩], [⟨⟨"electric"⟩⟩], ⟨"pikachu.png"⟩⟩

/-- A malformed raw detail object: no stats, no types. -/
def badRaw : RawPokemon := ⟨999, "missingno", [], [], ⟨"missingno.png"⟩⟩

/-- Witness for C10: a page with one well-formed and one malformed item
comes back empty. -/
theorem c10_page_discarded_witness :
    getCharacters (Except.ok [goodRaw, badRaw]) = [] :=
  c10_page_discarded [goodRaw, badRaw] badRaw
    (List.Mem.tail _ (List.Mem.head _)) (Or.inl rfl)

end PokeCombat
